import Mathlib

/-!
Verification development for `setup_taxi_database.py`, a script that
provisions a DuckDB database with NYC yellow-taxi data.

The script is embedded shallowly:
* a monthly parquet source is a `List RawTrip`; a download/parse failure of
  one source is `Option.none`;
* SQL `NULL` for `trip_id` is `Option.none` (the `INSERT ... SELECT` offsets
  new ids by the scalar subquery `MAX(trip_id)`, which is `NULL` on an empty
  table, and `NULL + k = NULL`);
* the `WHERE` filters, `LIMIT` caps, `ROW_NUMBER()` numbering and the
  fold over the remaining monthly files are translated statement by
  statement from `setup_database`;
* the zone-lookup path (`download_zone_lookup`, the `CREATE TABLE zones AS`
  rename, and the `create_minimal_zones` fallback) is driven by a
  `ZoneSource` describing which of the three outcomes occurred;
* the `__main__` prompt parsing and exit codes are modelled by
  `parseMonths` / `mainExitCode`.

Numeric columns that are floating point in the parquet files
(`fare_amount`, `trip_distance`, ...) are modelled as `Rat`; the claims only
depend on order comparisons, which `Rat` shares with the floats involved.
-/

namespace TaxiSetup

/-- A raw trip row as read from a monthly parquet file, with the source
column names used by the script's SELECT lists. Timestamps are modelled as
integers (epoch values); their content is pass-through. -/
structure RawTrip where
  tpep_pickup_datetime : Int
  tpep_dropoff_datetime : Int
  PULocationID : Int
  DOLocationID : Int
  passenger_count : Int
  trip_distance : Rat
  fare_amount : Rat
  tip_amount : Rat
  total_amount : Rat
  payment_type : Int
deriving DecidableEq

/-- A row of the `trips` table. `trip_id` is `Option Int` because the SQL
column is nullable: the append statement computes
`ROW_NUMBER() OVER () + (SELECT MAX(trip_id) FROM trips)` and `MAX` of an
empty table is `NULL`. -/
structure Trip where
  trip_id : Option Int
  pickup_datetime : Int
  dropoff_datetime : Int
  pickup_location_id : Int
  dropoff_location_id : Int
  passenger_count : Int
  trip_distance : Rat
  fare_amount : Rat
  tip_amount : Rat
  total_amount : Rat
  payment_type : Int
deriving DecidableEq

/-- The column renaming performed by both trip-loading SELECT lists
(`tpep_pickup_datetime as pickup_datetime`, `PULocationID as
pickup_location_id`, ...), together with the computed `trip_id`. -/
def mkTrip (id : Option Int) (r : RawTrip) : Trip :=
  ⟨id, r.tpep_pickup_datetime, r.tpep_dropoff_datetime, r.PULocationID,
   r.DOLocationID, r.passenger_count, r.trip_distance, r.fare_amount,
   r.tip_amount, r.total_amount, r.payment_type⟩

/-- The WHERE clause shared by both trip-loading statements:
`fare_amount > 0 AND fare_amount < 500 AND trip_distance > 0 AND
trip_distance < 100 AND passenger_count > 0 AND passenger_count <= 6`. -/
def passesFilters (r : RawTrip) : Bool :=
  decide (0 < r.fare_amount) && decide (r.fare_amount < 500) &&
  decide (0 < r.trip_distance) && decide (r.trip_distance < 100) &&
  decide (0 < r.passenger_count) && decide (r.passenger_count ≤ 6)

/-- `ROW_NUMBER() OVER () + off` applied to a list of filtered rows in
order: row number `n` is given to the head, `n + 1` to the next, and so on.
`off = none` models a `NULL` offset, which makes every id `NULL`. -/
def numberRowsFrom (off : Option Int) (n : Int) : List RawTrip → List Trip
  | [] => []
  | r :: rs => mkTrip (off.map (fun m => m + n)) r :: numberRowsFrom off (n + 1) rs

/-- `SELECT MAX(trip_id) FROM trips`: SQL `MAX` ignores `NULL`s and is
`NULL` exactly when no non-`NULL` value exists. -/
def maxTripId (ts : List Trip) : Option Int :=
  match ts.filterMap (fun t => t.trip_id) with
  | [] => none
  | v :: vs => some (vs.foldl max v)

/-- The `CREATE TABLE trips AS SELECT ROW_NUMBER() OVER () as trip_id, ...
WHERE <filters> LIMIT 100000` statement for the first month: filter, cap at
100000 rows, number from 1 (offset 0). -/
def loadFirstMonth (src : List RawTrip) : List Trip :=
  numberRowsFrom (some 0) 1 ((src.filter passesFilters).take 100000)

/-- The `INSERT INTO trips SELECT ROW_NUMBER() OVER () + (SELECT
MAX(trip_id) FROM trips) as trip_id, ... WHERE <filters> LIMIT 50000`
statement for a subsequent month, appended to the current table. The scalar
subquery reads the table state before the insert. -/
def loadLaterMonth (cur : List Trip) (src : List RawTrip) : List Trip :=
  cur ++ numberRowsFrom (maxTripId cur) 1 ((src.filter passesFilters).take 50000)

/-- One iteration of the `for url in urls[1:]` loop: a failed load
(`none`) is caught, logged, and skipped; a successful one is inserted. -/
def loadStep (cur : List Trip) (o : Option (List RawTrip)) : List Trip :=
  match o with
  | none => cur
  | some src => loadLaterMonth cur src

/-- The whole `for url in urls[1:]` loop. -/
def appendMonths (cur : List Trip) (rest : List (Option (List RawTrip))) : List Trip :=
  rest.foldl loadStep cur

/-- The trip-loading `try` block over the list of per-URL outcomes.
`urls[0]` on an empty list raises, and a failure of the first month's
`CREATE TABLE ... AS` raises; both leave no `trips` table (`none`) and are
caught by the outer handler. Otherwise the table is created from the first
month and the remaining months are appended, skipping failures. -/
def loadTrips : List (Option (List RawTrip)) → Option (List Trip)
  | [] => none
  | none :: _ => none
  | some s :: rest => some (appendMonths (loadFirstMonth s) rest)

/-- A row of the zone-lookup CSV with its source column names. -/
structure ZoneRaw where
  LocationID : Int
  Zone : String
  Borough : String
  service_zone : String
deriving DecidableEq

/-- A row of the `zones` table. -/
structure ZoneRow where
  location_id : Int
  zone_name : String
  borough : String
  service_zone : String
deriving DecidableEq

/-- The renaming in `CREATE TABLE zones AS SELECT LocationID as location_id,
Zone as zone_name, Borough as borough, service_zone FROM read_csv_auto(...)`. -/
def renameZone (z : ZoneRaw) : ZoneRow :=
  ⟨z.LocationID, z.Zone, z.Borough, z.service_zone⟩

/-- The hard-coded `zones_data` list in `create_minimal_zones`. -/
def zones_data : List (Int × String × String × String) :=
  [(1, "Newark Airport", "EWR", "EWR"),
   (4, "Alphabet City", "Manhattan", "Yellow Zone"),
   (12, "Battery Park", "Manhattan", "Yellow Zone"),
   (13, "Battery Park City", "Manhattan", "Yellow Zone"),
   (43, "Central Park", "Manhattan", "Yellow Zone"),
   (45, "Chinatown", "Manhattan", "Yellow Zone"),
   (79, "East Village", "Manhattan", "Yellow Zone"),
   (87, "Financial District North", "Manhattan", "Yellow Zone"),
   (88, "Financial District South", "Manhattan", "Yellow Zone"),
   (100, "Garment District", "Manhattan", "Yellow Zone"),
   (107, "Gramercy", "Manhattan", "Yellow Zone"),
   (113, "Greenwich Village North", "Manhattan", "Yellow Zone"),
   (114, "Greenwich Village South", "Manhattan", "Yellow Zone"),
   (125, "Hell\x27s Kitchen", "Manhattan", "Yellow Zone"),
   (137, "Kips Bay", "Manhattan", "Yellow Zone"),
   (140, "Lenox Hill East", "Manhattan", "Yellow Zone"),
   (141, "Lenox Hill West", "Manhattan", "Yellow Zone"),
   (142, "Lincoln Square East", "Manhattan", "Yellow Zone"),
   (143, "Lincoln Square West", "Manhattan", "Yellow Zone"),
   (144, "Little Italy", "Manhattan", "Yellow Zone"),
   (148, "Lower East Side", "Manhattan", "Yellow Zone"),
   (161, "Midtown Center", "Manhattan", "Yellow Zone"),
   (162, "Midtown East", "Manhattan", "Yellow Zone"),
   (163, "Midtown North", "Manhattan", "Yellow Zone"),
   (164, "Midtown South", "Manhattan", "Yellow Zone"),
   (170, "Murray Hill", "Manhattan", "Yellow Zone"),
   (186, "Penn Station", "Manhattan", "Yellow Zone"),
   (224, "Times Square", "Manhattan", "Yellow Zone"),
   (229, "Tribeca", "Manhattan", "Yellow Zone"),
   (230, "Two Bridges", "Manhattan", "Yellow Zone"),
   (231, "UN/Turtle Bay South", "Manhattan", "Yellow Zone"),
   (232, "Union Square", "Manhattan", "Yellow Zone"),
   (233, "Upper East Side North", "Manhattan", "Yellow Zone"),
   (234, "Upper East Side South", "Manhattan", "Yellow Zone"),
   (236, "Upper West Side North", "Manhattan", "Yellow Zone"),
   (237, "Upper West Side South", "Manhattan", "Yellow Zone"),
   (249, "Yorkville East", "Manhattan", "Yellow Zone"),
   (250, "Yorkville West", "Manhattan", "Yellow Zone")]

/-- The `zones` rows produced by `create_minimal_zones`: one `INSERT INTO
zones VALUES (?, ?, ?, ?)` per tuple of `zones_data`, in order. -/
def create_minimal_zones : List ZoneRow :=
  zones_data.map (fun p => ⟨p.1, p.2.1, p.2.2.1, p.2.2.2⟩)

/-- Outcome of the zone-lookup step feeding `setup_database`:
`download_zone_lookup` returned `False`; or it returned `True` but the
`CREATE TABLE zones AS ... read_csv_auto(...)` statement raised; or the
download succeeded and the CSV parsed into the given well-formed rows. -/
inductive ZoneSource where
  | downloadFailed
  | loadError
  | ok (rows : List ZoneRaw)

/-- Contents of the `zones` table after the zone step of `setup_database`:
renamed CSV rows on success, the hard-coded fallback on either failure. -/
def loadZones : ZoneSource → List ZoneRow
  | ZoneSource.downloadFailed => create_minimal_zones
  | ZoneSource.loadError => create_minimal_zones
  | ZoneSource.ok rows => rows.map renameZone

/-- `current_year = 2024`, the fixed reference year. -/
def current_year : Int := 2024

/-- The `for i in range(months_to_load): month = i + 1; if month <= 12:
months.append((current_year, month))` loop. `range` of a non-positive
count is empty. -/
def monthsFor (months_to_load : Int) : List (Int × Int) :=
  (List.range months_to_load.toNat).filterMap (fun (i : Nat) =>
    let month : Int := (i : Int) + 1
    if month ≤ 12 then some (current_year, month) else none)

/-- Python `f-string` formatting `{month:02d}` for the month component. -/
def pad2 (n : Int) : String :=
  if 0 ≤ n ∧ n < 10 then "0" ++ toString n else toString n

/-- The URL naming scheme
`.../yellow_tripdata_{year}-{month:02d}.parquet`. -/
def tripDataUrl (year month : Int) : String :=
  "https://d37ci6vzurychx.cloudfront.net/trip-data/yellow_tripdata_" ++
    toString year ++ "-" ++ pad2 month ++ ".parquet"

/-- The `urls` list built from `months`. -/
def tripUrls (months_to_load : Int) : List String :=
  (monthsFor months_to_load).map (fun p => tripDataUrl p.1 p.2)

/-- Observable outcome of one `setup_database` run: its return value, the
final contents of the `zones` table, the final contents of the `trips`
table (`none` when no `trips` table exists), and whether `con.close()` was
executed. -/
structure SetupResult where
  success : Bool
  zones : List ZoneRow
  trips : Option (List Trip)
  connClosed : Bool

/-- `setup_database`, parameterised by the zone-step outcome and by the
network, a map from URL to that parquet file's rows (`none` models a
download/parse failure of that URL). The zones table is (re)created first;
then the trip URLs are built and loaded; a missing first month aborts with
`return False` after `con.close()`, otherwise the run reports and returns
`True` after `con.close()`. -/
def setup_database (months_to_load : Int) (zsrc : ZoneSource)
    (net : String → Option (List RawTrip)) : SetupResult :=
  let zones := loadZones zsrc
  let urls := tripUrls months_to_load
  match loadTrips (urls.map net) with
  | none => ⟨false, zones, none, true⟩
  | some ts => ⟨true, zones, some ts, true⟩

/-- The `if success: sys.exit(0) else: sys.exit(1)` tail of `__main__`. -/
def exitCodeOf (r : SetupResult) : Nat :=
  if r.success then 0 else 1

/-- What the interactive prompt received: a line of text, or a
`KeyboardInterrupt`. -/
inductive UserInput where
  | interrupted
  | line (s : String)

/-- Python `str.strip()` on the characters of the string. -/
def pyStrip (s : String) : String :=
  ⟨((s.data.dropWhile Char.isWhitespace).reverse.dropWhile Char.isWhitespace).reverse⟩

/-- Value of a nonempty all-digit character list, `none` otherwise. -/
def digitsVal (cs : List Char) : Option Nat :=
  match cs with
  | [] => none
  | _ :: _ =>
    cs.foldl (fun acc c =>
      acc.bind (fun n =>
        if c.isDigit then some (10 * n + (c.toNat - 48)) else none)) (some 0)

/-- Python `int()` on an already-stripped string: an optional sign followed
by at least one digit; anything else raises `ValueError` (`none`). -/
def pyInt (s : String) : Option Int :=
  match s.data with
  | '+' :: rest => (digitsVal rest).map (fun n => (n : Int))
  | '-' :: rest => (digitsVal rest).map (fun n => -(n : Int))
  | cs => (digitsVal cs).map (fun n => (n : Int))

/-- The prompt-handling block of `__main__`: strip the input; empty input
means the default 3; a `ValueError` from `int()` or a `KeyboardInterrupt`
also means 3; a numeric value is clamped below by 1 and above by 12. -/
def parseMonths : UserInput → Int
  | UserInput.interrupted => 3
  | UserInput.line s =>
    let t := pyStrip s
    if t = "" then 3
    else
      match pyInt t with
      | none => 3
      | some v => if v < 1 then 1 else if v > 12 then 12 else v

/-- The whole `__main__`: parse the month count, run `setup_database`, exit
with 0 on `True` and 1 on `False`. -/
def mainExitCode (inp : UserInput) (zsrc : ZoneSource)
    (net : String → Option (List RawTrip)) : Nat :=
  exitCodeOf (setup_database (parseMonths inp) zsrc net)

/-- The three row-level quality conditions on a loaded trip row. -/
def tripOk (t : Trip) : Prop :=
  0 < t.fare_amount ∧ t.fare_amount < 500 ∧
  0 < t.trip_distance ∧ t.trip_distance < 100 ∧
  0 < t.passenger_count ∧ t.passenger_count ≤ 6

/-- Strict order on nullable trip ids: two `NULL`s (or a `NULL` on either
side) are never in order. -/
def tripIdLt (a b : Option Int) : Bool :=
  match a, b with
  | some x, some y => decide (x < y)
  | _, _ => false

/-- The trip ids of a table are strictly increasing in row (load) order. -/
def tripIdsStrictMono (ts : List Trip) : Prop :=
  List.Pairwise (fun a b => tripIdLt a b = true) (ts.map (fun t => t.trip_id))

/-- The rows of a table carry consecutive ids `k, k + 1, ...` in order. -/
def idsConsecFrom : Int → List Trip → Prop
  | _, [] => True
  | k, t :: ts => t.trip_id = some k ∧ idsConsecFrom (k + 1) ts

/-- The list of `n` consecutive integers starting at `k`. -/
def idList (k : Int) : Nat → List Int
  | 0 => []
  | n + 1 => k :: idList (k + 1) n

/-- Drop the failed months from a list of per-URL outcomes, keeping the
successful ones in order. -/
def keepSome (l : List (Option (List RawTrip))) : List (Option (List RawTrip)) :=
  (l.filterMap id).map some

/-- A concrete parquet row that passes every filter, with exactly one
passenger. -/
def cexRaw : RawTrip := ⟨0, 0, 1, 1, 1, 2, 10, 0, 10, 1⟩

/-- A second concrete parquet row that passes every filter. -/
def cexRaw2 : RawTrip := ⟨0, 0, 2, 2, 2, 3, 20, 1, 21, 2⟩

lemma passesFilters_iff (r : RawTrip) :
    passesFilters r = true ↔
      (0 < r.fare_amount ∧ r.fare_amount < 500 ∧
       0 < r.trip_distance ∧ r.trip_distance < 100 ∧
       0 < r.passenger_count ∧ r.passenger_count ≤ 6) := by
  simp [passesFilters, Bool.and_eq_true, decide_eq_true_eq, and_assoc]

lemma tripOk_mkTrip (id : Option Int) (r : RawTrip) (h : passesFilters r = true) :
    tripOk (mkTrip id r) := by
  rcases (passesFilters_iff r).mp h with ⟨h1, h2, h3, h4, h5, h6⟩
  exact ⟨h1, h2, h3, h4, h5, h6⟩

lemma mem_numberRowsFrom {t : Trip} :
    ∀ (rs : List RawTrip) (off : Option Int) (n : Int),
      t ∈ numberRowsFrom off n rs → ∃ r ∈ rs, ∃ id, t = mkTrip id r := by
  intro rs
  induction rs with
  | nil => intro off n h; simp [numberRowsFrom] at h
  | cons r rs ih =>
    intro off n h
    simp only [numberRowsFrom, List.mem_cons] at h
    rcases h with h | h
    · exact ⟨r, List.mem_cons_self r rs, _, h⟩
    · rcases ih off (n + 1) h with ⟨r', hr', id, ht⟩
      exact ⟨r', List.mem_cons_of_mem _ hr', id, ht⟩

lemma tripOk_loadFirstMonth {t : Trip} {s : List RawTrip}
    (h : t ∈ loadFirstMonth s) : tripOk t := by
  rcases mem_numberRowsFrom _ _ _ h with ⟨r, hr, id, rfl⟩
  exact tripOk_mkTrip _ _ (List.of_mem_filter (List.mem_of_mem_take hr))

lemma tripOk_loadLaterMonth {cur : List Trip} {src : List RawTrip}
    (hcur : ∀ t ∈ cur, tripOk t) :
    ∀ t ∈ loadLaterMonth cur src, tripOk t := by
  intro t ht
  rcases List.mem_append.mp ht with h | h
  · exact hcur t h
  · rcases mem_numberRowsFrom _ _ _ h with ⟨r, hr, id, rfl⟩
    exact tripOk_mkTrip _ _ (List.of_mem_filter (List.mem_of_mem_take hr))

lemma tripOk_appendMonths :
    ∀ (rest : List (Option (List RawTrip))) (cur : List Trip),
      (∀ t ∈ cur, tripOk t) → ∀ t ∈ appendMonths cur rest, tripOk t := by
  intro rest
  induction rest with
  | nil => intro cur hcur t ht; exact hcur t ht
  | cons o rest ih =>
    intro cur hcur t ht
    have e : appendMonths cur (o :: rest) = appendMonths (loadStep cur o) rest := rfl
    rw [e] at ht
    refine ih (loadStep cur o) ?_ t ht
    intro t' ht'
    cases o with
    | none => exact hcur t' ht'
    | some src => exact tripOk_loadLaterMonth hcur t' ht'

lemma numberRowsFrom_length :
    ∀ (rs : List RawTrip) (off : Option Int) (n : Int),
      (numberRowsFrom off n rs).length = rs.length := by
  intro rs
  induction rs with
  | nil => intro off n; rfl
  | cons r rs ih => intro off n; simp [numberRowsFrom, ih]

lemma loadFirstMonth_length (s : List RawTrip) :
    (loadFirstMonth s).length ≤ 100000 := by
  rw [loadFirstMonth, numberRowsFrom_length]
  have := List.length_take 100000 (s.filter passesFilters)
  omega

lemma loadLaterMonth_length (cur : List Trip) (src : List RawTrip) :
    (loadLaterMonth cur src).length ≤ cur.length + 50000 := by
  rw [loadLaterMonth, List.length_append, numberRowsFrom_length]
  have := List.length_take 50000 (src.filter passesFilters)
  omega

lemma appendMonths_length :
    ∀ (rest : List (Option (List RawTrip))) (cur : List Trip),
      (appendMonths cur rest).length ≤ cur.length + 50000 * rest.length := by
  intro rest
  induction rest with
  | nil => intro cur; simp [appendMonths]
  | cons o rest ih =>
    intro cur
    have e : appendMonths cur (o :: rest) = appendMonths (loadStep cur o) rest := rfl
    rw [e]
    have h2 := ih (loadStep cur o)
    have h3 : (loadStep cur o).length ≤ cur.length + 50000 := by
      cases o with
      | none => simp [loadStep]
      | some src => exact loadLaterMonth_length cur src
    simp only [List.length_cons]
    omega

lemma numberRowsFrom_consec (m : Int) :
    ∀ (rs : List RawTrip) (n : Int),
      idsConsecFrom (m + n) (numberRowsFrom (some m) n rs) := by
  intro rs
  induction rs with
  | nil => intro n; trivial
  | cons r rs ih =>
    intro n
    refine ⟨rfl, ?_⟩
    have h := ih (n + 1)
    have e : m + n + 1 = m + (n + 1) := by ring
    rw [e]
    exact h

lemma idsConsecFrom_append :
    ∀ (ts₁ : List Trip) (k : Int) (ts₂ : List Trip),
      idsConsecFrom k ts₁ → idsConsecFrom (k + ts₁.length) ts₂ →
      idsConsecFrom k (ts₁ ++ ts₂) := by
  intro ts₁
  induction ts₁ with
  | nil => intro k ts₂ _ h2; simpa using h2
  | cons t ts ih =>
    intro k ts₂ h1 h2
    obtain ⟨ht, hts⟩ := h1
    refine ⟨ht, ?_⟩
    apply ih (k + 1) ts₂ hts
    have e : k + 1 + (ts.length : Int) = k + ((t :: ts).length : Int) := by
      simp only [List.length_cons]
      push_cast
      ring
    rw [e]
    exact h2

lemma filterMap_consec :
    ∀ (ts : List Trip) (k : Int), idsConsecFrom k ts →
      ts.filterMap (fun t => t.trip_id) = idList k ts.length := by
  intro ts
  induction ts with
  | nil => intro k _; rfl
  | cons t ts ih =>
    intro k h
    obtain ⟨ht, hts⟩ := h
    simp only [List.filterMap_cons, ht, List.length_cons, idList]
    rw [ih (k + 1) hts]

lemma foldl_max_idList :
    ∀ (n : Nat) (k v : Int),
      (idList k n).foldl max v = if n = 0 then v else max v (k + n - 1) := by
  intro n
  induction n with
  | zero => intro k v; rfl
  | succ n ih =>
    intro k v
    simp only [idList, List.foldl_cons]
    rw [ih (k + 1) (max v k)]
    simp only [Nat.succ_ne_zero, if_false]
    by_cases h : n = 0
    · subst h
      simp only [if_true]
      congr 1
      push_cast
      ring
    · simp only [h, if_false]
      have e : k + 1 + (n : Int) - 1 = k + n := by ring
      have e2 : k + ((n + 1 : Nat) : Int) - 1 = k + n := by push_cast; ring
      rw [e, e2, max_assoc, max_eq_right (by omega : k ≤ k + (n : Int))]

lemma maxTripId_eq_of_filterMap {ts : List Trip} {v : Int} {vs : List Int}
    (h : ts.filterMap (fun t => t.trip_id) = v :: vs) :
    maxTripId ts = some (vs.foldl max v) := by
  unfold maxTripId
  rw [h]

lemma maxTripId_consec (ts : List Trip) (k : Int)
    (h : idsConsecFrom k ts) (hne : ts ≠ []) :
    maxTripId ts = some (k + ts.length - 1) := by
  cases ts with
  | nil => exact absurd rfl hne
  | cons t ts' =>
    have hfm : (t :: ts').filterMap (fun t => t.trip_id) =
        k :: idList (k + 1) ts'.length := by
      have h' := filterMap_consec (t :: ts') k h
      simpa [idList] using h'
    rw [maxTripId_eq_of_filterMap hfm, foldl_max_idList]
    by_cases h0 : ts'.length = 0
    · simp only [h0, if_true]
      congr 1
      simp [h0]
    · simp only [h0, if_false]
      congr 1
      have e : k + 1 + (ts'.length : Int) - 1 = k + ((t :: ts').length : Int) - 1 := by
        simp only [List.length_cons]
        push_cast
        ring
      rw [e, max_eq_right]
      simp only [List.length_cons]
      push_cast
      omega

lemma consec_mem_id :
    ∀ (ts : List Trip) (k : Int), idsConsecFrom k ts →
      ∀ t ∈ ts, ∃ x, t.trip_id = some x ∧ k ≤ x := by
  intro ts
  induction ts with
  | nil => intro k _ t ht; simp at ht
  | cons t ts ih =>
    intro k h t' ht'
    obtain ⟨ht, hts⟩ := h
    rcases List.mem_cons.mp ht' with rfl | hmem
    · exact ⟨k, ht, le_refl k⟩
    · rcases ih (k + 1) hts t' hmem with ⟨x, hx, hkx⟩
      exact ⟨x, hx, by omega⟩

lemma consec_strictMono :
    ∀ (ts : List Trip) (k : Int), idsConsecFrom k ts → tripIdsStrictMono ts := by
  intro ts
  induction ts with
  | nil => intro k _; exact List.Pairwise.nil
  | cons t ts ih =>
    intro k h
    obtain ⟨ht, hts⟩ := h
    simp only [tripIdsStrictMono, List.map_cons] at *
    refine List.Pairwise.cons ?_ (ih (k + 1) hts)
    intro b hb
    rcases List.mem_map.mp hb with ⟨t', ht', rfl⟩
    rcases consec_mem_id ts (k + 1) hts t' ht' with ⟨x, hx, hkx⟩
    rw [ht, hx]
    simp only [tripIdLt, decide_eq_true_eq]
    omega

lemma strictMono_nodup {ts : List Trip} (h : tripIdsStrictMono ts) :
    (ts.map (fun t => t.trip_id)).Nodup := by
  refine h.imp ?_
  intro a b hab
  cases a with
  | none => simp [tripIdLt] at hab
  | some x =>
    cases b with
    | none => simp [tripIdLt] at hab
    | some y =>
      simp only [tripIdLt, decide_eq_true_eq] at hab
      simp only [ne_eq, Option.some.injEq]
      omega

lemma loadLaterMonth_inv {cur : List Trip} (src : List RawTrip)
    (h : idsConsecFrom 1 cur) (hne : cur ≠ []) :
    idsConsecFrom 1 (loadLaterMonth cur src) ∧ loadLaterMonth cur src ≠ [] := by
  have hmax : maxTripId cur = some (1 + (cur.length : Int) - 1) :=
    maxTripId_consec cur 1 h hne
  constructor
  · rw [loadLaterMonth, hmax]
    apply idsConsecFrom_append cur 1 _ h
    have hc := numberRowsFrom_consec (1 + (cur.length : Int) - 1)
      ((src.filter passesFilters).take 50000) 1
    have e : 1 + (cur.length : Int) - 1 + 1 = 1 + (cur.length : Int) := by ring
    rw [e] at hc
    exact hc
  · rw [loadLaterMonth]
    intro hcontra
    exact hne (List.append_eq_nil.mp hcontra).1

lemma appendMonths_inv :
    ∀ (rest : List (Option (List RawTrip))) (cur : List Trip),
      idsConsecFrom 1 cur → cur ≠ [] →
      idsConsecFrom 1 (appendMonths cur rest) ∧ appendMonths cur rest ≠ [] := by
  intro rest
  induction rest with
  | nil => intro cur h hne; exact ⟨h, hne⟩
  | cons o rest ih =>
    intro cur h hne
    have e : appendMonths cur (o :: rest) = appendMonths (loadStep cur o) rest := rfl
    rw [e]
    cases o with
    | none => exact ih cur h hne
    | some src =>
      rcases loadLaterMonth_inv src h hne with ⟨h', hne'⟩
      exact ih _ h' hne'

lemma loadFirstMonth_consec (s : List RawTrip) :
    idsConsecFrom 1 (loadFirstMonth s) := by
  have h := numberRowsFrom_consec 0 ((s.filter passesFilters).take 100000) 1
  simpa using h

lemma appendMonths_keepSome :
    ∀ (rest : List (Option (List RawTrip))) (cur : List Trip),
      appendMonths cur rest = appendMonths cur (keepSome rest) := by
  intro rest
  induction rest with
  | nil => intro cur; rfl
  | cons o rest ih =>
    intro cur
    cases o with
    | none =>
      have e1 : appendMonths cur (none :: rest) = appendMonths cur rest := rfl
      have e2 : keepSome (none :: rest) = keepSome rest := by simp [keepSome]
      rw [e1, e2]
      exact ih cur
    | some src =>
      have e2 : keepSome (some src :: rest) = some src :: keepSome rest := by
        simp [keepSome]
      rw [e2]
      have e1 : appendMonths cur (some src :: rest) =
          appendMonths (loadLaterMonth cur src) rest := rfl
      have e3 : appendMonths cur (some src :: keepSome rest) =
          appendMonths (loadLaterMonth cur src) (keepSome rest) := rfl
      rw [e1, e3]
      exact ih _

lemma monthsFor_length (n : Int) :
    (monthsFor n).length = min n.toNat 12 := by
  unfold monthsFor
  generalize n.toNat = k
  induction k with
  | zero => rfl
  | succ k ih =>
    rw [List.range_succ, List.filterMap_append, List.length_append, ih]
    by_cases h : (k : Int) + 1 ≤ 12
    · simp only [List.filterMap_cons, List.filterMap_nil, h, if_true,
        List.length_cons, List.length_nil]
      omega
    · simp only [List.filterMap_cons, List.filterMap_nil, h, if_false,
        List.length_nil]
      omega

lemma parseMonths_bounds (inp : UserInput) :
    1 ≤ parseMonths inp ∧ parseMonths inp ≤ 12 := by
  cases inp with
  | interrupted => exact ⟨by decide, by decide⟩
  | line s =>
    simp only [parseMonths]
    by_cases h0 : pyStrip s = ""
    · simp only [h0, if_true]
      exact ⟨by decide, by decide⟩
    · simp only [h0, if_false]
      cases hp : pyInt (pyStrip s) with
      | none => exact ⟨by decide, by decide⟩
      | some v =>
        by_cases h1 : v < 1
        · simp only [h1, if_true]
          exact ⟨le_refl 1, by decide⟩
        · simp only [h1, if_false]
          by_cases h2 : v > 12
          · simp only [h2, if_true]
            exact ⟨by decide, le_refl 12⟩
          · simp only [h2, if_false]
            exact ⟨by omega, by omega⟩

/-- C1 counterexample: the claim requires `passenger_count` in the open
interval `(1,6]`, but the code's filter is `passenger_count > 0`, so a
concrete run whose parquet file holds a one-passenger trip produces a
`trips` row with `passenger_count = 1`, which is not greater than 1. -/
theorem C1_counterexample :
    loadTrips [some [cexRaw]] = some [mkTrip (some 1) cexRaw] ∧
    (mkTrip (some 1) cexRaw).passenger_count = 1 ∧
    ¬(1 < (mkTrip (some 1) cexRaw).passenger_count) := by
  refine ⟨by decide, rfl, by decide⟩

/-- C1 (amended: `passenger_count` in `(0,6]` instead of `(1,6]`): every
row present in the `trips` table after loading any combination of monthly
files satisfies `fare_amount` in `(0,500)`, `trip_distance` in `(0,100)`
and `passenger_count` in `(0,6]`. -/
theorem C1_theorem :
    ∀ (sources : List (Option (List RawTrip))) (ts : List Trip),
      loadTrips sources = some ts →
      ∀ t ∈ ts,
        0 < t.fare_amount ∧ t.fare_amount < 500 ∧
        0 < t.trip_distance ∧ t.trip_distance < 100 ∧
        0 < t.passenger_count ∧ t.passenger_count ≤ 6 := by
  intro sources ts h t ht
  cases sources with
  | nil => simp [loadTrips] at h
  | cons o rest =>
    cases o with
    | none => simp [loadTrips] at h
    | some s =>
      simp only [loadTrips, Option.some.injEq] at h
      subst h
      exact tripOk_appendMonths rest (loadFirstMonth s)
        (fun t' ht' => tripOk_loadFirstMonth ht') t ht

/-- C1 witness: the amended theorem applied to the one-month, one-row run. -/
theorem C1_witness :
    0 < (mkTrip (some 1) cexRaw).fare_amount ∧
    (mkTrip (some 1) cexRaw).fare_amount < 500 ∧
    0 < (mkTrip (some 1) cexRaw).trip_distance ∧
    (mkTrip (some 1) cexRaw).trip_distance < 100 ∧
    0 < (mkTrip (some 1) cexRaw).passenger_count ∧
    (mkTrip (some 1) cexRaw).passenger_count ≤ 6 :=
  C1_theorem [some [cexRaw]] [mkTrip (some 1) cexRaw] (by decide)
    (mkTrip (some 1) cexRaw) (by decide)

/-- C2 counterexample: when the first month's load succeeds but yields zero
qualifying rows, `MAX(trip_id)` over the empty table is `NULL`, so every
row appended for the second month gets a `NULL` trip id: the ids are
neither unique (the two rows carry the same `NULL`) nor strictly
increasing. -/
theorem C2_counterexample :
    loadTrips [some [], some [cexRaw, cexRaw2]] =
      some [mkTrip none cexRaw, mkTrip none cexRaw2] ∧
    (mkTrip none cexRaw).trip_id = (mkTrip none cexRaw2).trip_id ∧
    ¬tripIdsStrictMono [mkTrip none cexRaw, mkTrip none cexRaw2] := by
  refine ⟨by decide, rfl, ?_⟩
  intro h
  simp only [tripIdsStrictMono, List.map_cons, List.map_nil] at h
  have hr := List.rel_of_pairwise_cons h (List.mem_cons_self _ _)
  exact absurd hr (by decide)

/-- C2 (amended: provided the first month's load yields at least one row,
otherwise the appended rows carry `NULL` trip ids): across the whole load
sequence — first-month creation then zero or more appends, failed months
skipped — the `trip_id` values are unique and strictly increasing in the
order the rows were loaded. -/
theorem C2_theorem :
    ∀ (s : List RawTrip) (rest : List (Option (List RawTrip))) (ts : List Trip),
      loadFirstMonth s ≠ [] →
      loadTrips (some s :: rest) = some ts →
      tripIdsStrictMono ts ∧ (ts.map (fun t => t.trip_id)).Nodup := by
  intro s rest ts hne h
  simp only [loadTrips, Option.some.injEq] at h
  subst h
  have hinv := appendMonths_inv rest (loadFirstMonth s) (loadFirstMonth_consec s) hne
  have hmono := consec_strictMono _ 1 hinv.1
  exact ⟨hmono, strictMono_nodup hmono⟩

/-- C2 witness: the amended theorem applied to a one-month, one-row run. -/
theorem C2_witness :
    tripIdsStrictMono [mkTrip (some 1) cexRaw] ∧
    (([mkTrip (some 1) cexRaw]).map (fun t => t.trip_id)).Nodup :=
  C2_theorem [cexRaw] [] [mkTrip (some 1) cexRaw] (by decide) (by decide)

/-- C3: if the first month's load fails, there is no `trips` table,
`setup_database` returns `False` and the process exits with code 1; if only
later months fail they are skipped, the `trips` table holds exactly the
rows of the months that succeeded (as if only those had been requested),
the run continues to reporting, and the process exits with code 0. -/
theorem C3_theorem :
    ∀ (n : Int) (zsrc : ZoneSource) (net : String → Option (List RawTrip))
      (u : String) (us : List String),
      tripUrls n = u :: us →
      ((net u = none →
        (setup_database n zsrc net).success = false ∧
        (setup_database n zsrc net).trips = none ∧
        exitCodeOf (setup_database n zsrc net) = 1) ∧
       (∀ s, net u = some s →
        (setup_database n zsrc net).success = true ∧
        (setup_database n zsrc net).trips =
          some (appendMonths (loadFirstMonth s) (keepSome (us.map net))) ∧
        exitCodeOf (setup_database n zsrc net) = 0)) := by
  intro n zsrc net u us hurls
  constructor
  · intro hnet
    have e : setup_database n zsrc net = ⟨false, loadZones zsrc, none, true⟩ := by
      simp only [setup_database, hurls, List.map_cons, hnet, loadTrips]
    rw [e]
    exact ⟨rfl, rfl, rfl⟩
  · intro s hnet
    have e : setup_database n zsrc net =
        ⟨true, loadZones zsrc,
         some (appendMonths (loadFirstMonth s) (us.map net)), true⟩ := by
      simp only [setup_database, hurls, List.map_cons, hnet, loadTrips]
    rw [e]
    exact ⟨rfl, congrArg some (appendMonths_keepSome (us.map net) (loadFirstMonth s)), rfl⟩

/-- C3 witness: a one-month run whose only load fails, and a one-month run
whose only load succeeds. -/
theorem C3_witness :
    ((setup_database 1 ZoneSource.downloadFailed (fun _ => none)).success = false ∧
     (setup_database 1 ZoneSource.downloadFailed (fun _ => none)).trips = none ∧
     exitCodeOf (setup_database 1 ZoneSource.downloadFailed (fun _ => none)) = 1) ∧
    ((setup_database 1 ZoneSource.downloadFailed (fun _ => some [cexRaw])).success = true ∧
     (setup_database 1 ZoneSource.downloadFailed (fun _ => some [cexRaw])).trips =
       some (loadFirstMonth [cexRaw]) ∧
     exitCodeOf (setup_database 1 ZoneSource.downloadFailed (fun _ => some [cexRaw])) = 0) :=
  ⟨(C3_theorem 1 ZoneSource.downloadFailed (fun _ => none)
      "https://d37ci6vzurychx.cloudfront.net/trip-data/yellow_tripdata_2024-01.parquet"
      [] (by rfl)).1 rfl,
   (C3_theorem 1 ZoneSource.downloadFailed (fun _ => some [cexRaw])
      "https://d37ci6vzurychx.cloudfront.net/trip-data/yellow_tripdata_2024-01.parquet"
      [] (by rfl)).2 [cexRaw] rfl⟩

/-- C4: for every month count in `[1,12]`, exactly that many distinct URLs
are generated, one per consecutive month from January 2024, following the
`yellow_tripdata_{year}-{month:02d}.parquet` scheme; one month yields
exactly the 2024-01 URL. -/
theorem C4_theorem :
    ∀ n : Int, 1 ≤ n → n ≤ 12 →
      (tripUrls n).length = n.toNat ∧
      (tripUrls n).Nodup ∧
      tripUrls n = (List.range n.toNat).map
        (fun (i : Nat) => tripDataUrl current_year ((i : Int) + 1)) ∧
      tripUrls 1 =
        ["https://d37ci6vzurychx.cloudfront.net/trip-data/yellow_tripdata_2024-01.parquet"] := by
  intro n h1 h2
  interval_cases n <;> exact ⟨by rfl, by decide, by rfl, by rfl⟩

/-- C4 witness: the theorem applied at one month. -/
theorem C4_witness :
    (tripUrls 1).length = (1 : Int).toNat ∧
    (tripUrls 1).Nodup ∧
    tripUrls 1 = (List.range (1 : Int).toNat).map
      (fun (i : Nat) => tripDataUrl current_year ((i : Int) + 1)) ∧
    tripUrls 1 =
      ["https://d37ci6vzurychx.cloudfront.net/trip-data/yellow_tripdata_2024-01.parquet"] :=
  C4_theorem 1 (by decide) (by decide)

/-- C5: the first month inserts at most 100000 rows, each later month
appends at most 50000, and a run over 1 + `rest.length` months leaves at
most `100000 + 50000 * rest.length` rows in the `trips` table. -/
theorem C5_theorem :
    (∀ s, (loadFirstMonth s).length ≤ 100000) ∧
    (∀ cur src, (loadLaterMonth cur src).length ≤ cur.length + 50000) ∧
    (∀ (s : List RawTrip) (rest : List (Option (List RawTrip))) (ts : List Trip),
      loadTrips (some s :: rest) = some ts →
      ts.length ≤ 100000 + 50000 * rest.length) := by
  refine ⟨loadFirstMonth_length, loadLaterMonth_length, ?_⟩
  intro s rest ts h
  simp only [loadTrips, Option.some.injEq] at h
  subst h
  have h1 := appendMonths_length rest (loadFirstMonth s)
  have h2 := loadFirstMonth_length s
  omega

/-- C5 witness: the run bound applied to a one-month, one-row run. -/
theorem C5_witness :
    ([mkTrip (some 1) cexRaw] : List Trip).length ≤
      100000 + 50000 * ([] : List (Option (List RawTrip))).length :=
  C5_theorem.2.2 [cexRaw] [] [mkTrip (some 1) cexRaw] (by decide)

/-- C6: on a failed zone download, and likewise on a failed load of the
downloaded CSV, the `zones` table ends with exactly the hard-coded fallback
rows — the `zones_data` list of 38 rows, the same on every such run. -/
theorem C6_theorem :
    ∀ zsrc : ZoneSource,
      (zsrc = ZoneSource.downloadFailed ∨ zsrc = ZoneSource.loadError) →
      loadZones zsrc = create_minimal_zones ∧
      create_minimal_zones.length = 38 := by
  intro zsrc h
  rcases h with rfl | rfl
  · exact ⟨rfl, by rfl⟩
  · exact ⟨rfl, by rfl⟩

/-- C6 witness: the theorem applied to the failed-download outcome. -/
theorem C6_witness :
    loadZones ZoneSource.downloadFailed = create_minimal_zones ∧
    create_minimal_zones.length = 38 :=
  C6_theorem ZoneSource.downloadFailed (Or.inl rfl)

/-- C7: when the zone download succeeds with `K` well-formed rows, the
`zones` table ends with exactly those `K` rows, renamed per the mapping
`LocationID → location_id`, `Zone → zone_name`, `Borough → borough`,
`service_zone` unchanged. -/
theorem C7_theorem :
    ∀ rows : List ZoneRaw,
      loadZones (ZoneSource.ok rows) = rows.map renameZone ∧
      (loadZones (ZoneSource.ok rows)).length = rows.length ∧
      rows.map renameZone =
        rows.map (fun z => ⟨z.LocationID, z.Zone, z.Borough, z.service_zone⟩) := by
  intro rows
  refine ⟨rfl, ?_, rfl⟩
  simp [loadZones]

/-- C8: empty, non-numeric and interrupted input all yield the default 3;
a numeric value below 1 is coerced to 1 and one above 12 to 12; the process
exits 0 when `setup_database` returns `True` and 1 when it returns
`False`. -/
theorem C8_theorem :
    parseMonths UserInput.interrupted = 3 ∧
    (∀ s, pyStrip s = "" → parseMonths (UserInput.line s) = 3) ∧
    (∀ s, pyInt (pyStrip s) = none → parseMonths (UserInput.line s) = 3) ∧
    (∀ s v, pyInt (pyStrip s) = some v → v < 1 →
      parseMonths (UserInput.line s) = 1) ∧
    (∀ s v, pyInt (pyStrip s) = some v → 12 < v →
      parseMonths (UserInput.line s) = 12) ∧
    (∀ (inp : UserInput) (zsrc : ZoneSource) (net : String → Option (List RawTrip)),
      ((setup_database (parseMonths inp) zsrc net).success = true →
        mainExitCode inp zsrc net = 0) ∧
      ((setup_database (parseMonths inp) zsrc net).success = false →
        mainExitCode inp zsrc net = 1)) := by
  refine ⟨rfl, ?_, ?_, ?_, ?_, ?_⟩
  · intro s h
    simp [parseMonths, h]
  · intro s h
    by_cases h0 : pyStrip s = ""
    · simp [parseMonths, h0]
    · simp [parseMonths, h0, h]
  · intro s v hv h1
    have h0 : ¬pyStrip s = "" := by
      intro e
      rw [e] at hv
      rw [(rfl : pyInt "" = none)] at hv
      exact Option.noConfusion hv
    simp only [parseMonths, if_neg h0]
    rw [hv]
    simp [h1]
  · intro s v hv h2
    have h0 : ¬pyStrip s = "" := by
      intro e
      rw [e] at hv
      rw [(rfl : pyInt "" = none)] at hv
      exact Option.noConfusion hv
    simp only [parseMonths, if_neg h0]
    rw [hv]
    have h1 : ¬v < 1 := by omega
    simp [h1, h2]
  · intro inp zsrc net
    constructor
    · intro h
      simp [mainExitCode, exitCodeOf, h]
    · intro h
      simp [mainExitCode, exitCodeOf, h]

/-- C8 witness: whitespace, non-numeric, too-small and too-large inputs,
and the exit code of a failing run. -/
theorem C8_witness :
    parseMonths (UserInput.line " ") = 3 ∧
    parseMonths (UserInput.line "abc") = 3 ∧
    parseMonths (UserInput.line "0") = 1 ∧
    parseMonths (UserInput.line "99") = 12 ∧
    mainExitCode (UserInput.line "1") ZoneSource.downloadFailed (fun _ => none) = 1 :=
  ⟨C8_theorem.2.1 " " (by rfl),
   C8_theorem.2.2.1 "abc" (by rfl),
   C8_theorem.2.2.2.1 "0" 0 (by rfl) (by decide),
   C8_theorem.2.2.2.2.1 "99" 99 (by rfl) (by decide),
   (C8_theorem.2.2.2.2.2 (UserInput.line "1") ZoneSource.downloadFailed
     (fun _ => none)).2 (by rfl)⟩

/-- C9: calling `setup_database` with a non-positive month count generates
no URLs, the trip-loading step fails on the empty URL list, no `trips`
table exists and `False` is returned; `setup_database` itself only caps the
month count at 12 (`(monthsFor n).length = min n.toNat 12`), while the
clamp into `[1,12]` happens only in the interactive entry point. -/
theorem C9_theorem :
    ∀ (n : Int) (zsrc : ZoneSource) (net : String → Option (List RawTrip)),
      (n ≤ 0 →
        monthsFor n = [] ∧ tripUrls n = [] ∧
        (setup_database n zsrc net).success = false ∧
        (setup_database n zsrc net).trips = none) ∧
      (monthsFor n).length = min n.toNat 12 ∧
      (∀ inp : UserInput, 1 ≤ parseMonths inp ∧ parseMonths inp ≤ 12) := by
  intro n zsrc net
  refine ⟨?_, monthsFor_length n, parseMonths_bounds⟩
  intro hn
  have h0 : n.toNat = 0 := Int.toNat_of_nonpos hn
  have hm : monthsFor n = [] := by
    unfold monthsFor
    rw [h0]
    rfl
  have hu : tripUrls n = [] := by
    unfold tripUrls
    rw [hm]
    rfl
  have e : setup_database n zsrc net = ⟨false, loadZones zsrc, none, true⟩ := by
    simp only [setup_database, hu, List.map_nil, loadTrips]
  rw [e]
  exact ⟨hm, hu, rfl, rfl⟩

/-- C9 witness: a direct call with zero months. -/
theorem C9_witness :
    monthsFor 0 = [] ∧ tripUrls 0 = [] ∧
    (setup_database 0 ZoneSource.loadError (fun _ => none)).success = false ∧
    (setup_database 0 ZoneSource.loadError (fun _ => none)).trips = none :=
  (C9_theorem 0 ZoneSource.loadError (fun _ => none)).1 (by decide)

/-- C10: whatever the trip-loading outcome, the `zones` table populated
earlier in the run is exactly what the zone step produced, and the database
connection is closed before `setup_database` returns on both the success
and the failure path. -/
theorem C10_theorem :
    ∀ (n : Int) (zsrc : ZoneSource) (net : String → Option (List RawTrip)),
      (setup_database n zsrc net).zones = loadZones zsrc ∧
      (setup_database n zsrc net).connClosed = true := by
  intro n zsrc net
  cases h : loadTrips ((tripUrls n).map net) with
  | none => simp [setup_database, h]
  | some ts => simp [setup_database, h]

end TaxiSetup
